import Mathlib

/-
Verification of the MARIS 3-DOF vessel-maneuvering simulator core.

Shallow embedding conventions:
  - Python floats are modelled as rationals (ℚ): arithmetic is exact and every
    value is finite, so math.isfinite checks are vacuously true in the model
    (noted at each use site).  Claims about non-finite inputs are settled on
    the finite domain only.
  - Python exceptions are modelled with Except PyErr: a function that can
    raise returns Except PyErr α, and an unguarded division whose denominator
    is zero returns PyErr.zeroDivision exactly where Python would raise
    ZeroDivisionError.
  - Transcendental float operations (math.cos, math.sin, x ** 0.5) have no
    exact rational counterpart; they are passed in as an uninterpreted
    function bundle TranscOps.  Theorems quantify over the bundle and assume
    only properties the float functions actually have (e.g. sqrt 0 = 0).
  - The float constant math.pi is modelled by piQ, the exact rational value
    of the IEEE-754 double 3.141592653589793.
-/

/-- Python exception kinds raised by the simulator core
(src/maris/core/exceptions.py plus built-in exceptions). -/
inductive PyErr where
  | configError (msg : String)
  | numericalInstability (msg : String)
  | attributeError (msg : String)
  | zeroDivision
  deriving Repr, DecidableEq

/-- Rational value of the IEEE-754 double math.pi = 3.141592653589793
(exactly 884279719003555 / 2^48). -/
def piQ : ℚ := 884279719003555 / 281474976710656

/-- VesselState from src/maris/core/types.py: simulation time, planar
position, heading, surge/sway velocity, yaw rate. -/
structure VesselState where
  t : ℚ
  x : ℚ
  y : ℚ
  psi : ℚ
  u : ℚ
  v : ℚ
  r : ℚ
  deriving Repr, DecidableEq

/-- ControlInput from src/maris/core/types.py.  The dataclass declares
exactly the fields rpm, rudder_angle, throttle, notes; it has NO
bow_thruster_force / bow_thruster_angle / stern_thruster_force /
stern_thruster_angle fields. -/
structure ControlInput where
  rpm : ℚ
  rudder_angle : ℚ
  throttle : Option ℚ := none
  notes : Option String := none
  deriving Repr, DecidableEq

/-- EnvironmentSample from src/maris/core/types.py.  The dataclass has no
depth field, so hasattr(env, "depth") is always False. -/
structure EnvironmentSample where
  wind_speed : ℚ
  wind_dir_from : ℚ
  current_speed : ℚ
  current_dir_to : ℚ
  sea_state : Option ℤ := none
  deriving Repr, DecidableEq

/-- Derivatives from src/maris/core/types.py. -/
structure Derivatives where
  dx : ℚ
  dy : ℚ
  dpsi : ℚ
  du : ℚ
  dv : ℚ
  dr : ℚ
  deriving Repr, DecidableEq

/-- Python dict with float values, as consumed through .get(key, default);
modelled as an association list with first-match lookup. -/
structure PyDict where
  entries : List (String × ℚ)
  deriving Repr, DecidableEq

/-- Lookup returning none when the key is absent (dict.get(k)). -/
def PyDict.find (d : PyDict) (k : String) : Option ℚ :=
  (d.entries.find? (fun p => p.1 == k)).map (fun p => p.2)

/-- dict.get(k, default). -/
def PyDict.getD (d : PyDict) (k : String) (dflt : ℚ) : ℚ :=
  (d.find k).getD dflt

/-- Python membership test: k in d. -/
def PyDict.hasKey (d : PyDict) (k : String) : Bool :=
  (d.find k).isSome

/-- Empty dict. -/
def PyDict.empty : PyDict := ⟨[]⟩

/-- prop_params as read by PropulsionForce.compute: flat keys looked up
first, then a nested "map" dict (src/maris/forces/propulsion.py lines
30-37).  flat models the top-level float entries of the dict, nested models
the entries of the "map" sub-dict (taken to be the empty dict when the
"map" key is absent or not a dict, as in the source). -/
structure PropParams where
  flat : PyDict := PyDict.empty
  nested : PyDict := PyDict.empty
  deriving Repr, DecidableEq

/-- The helper _g of PropulsionForce.compute: flat key wins, else nested
with default. -/
def PropParams.g (pp : PropParams) (k : String) (dflt : ℚ) : ℚ :=
  if pp.flat.hasKey k then pp.flat.getD k 0 else pp.nested.getD k dflt

/-- VesselParams from src/maris/core/types.py (fields used by the core). -/
structure VesselParams where
  m : ℚ
  Iz : ℚ
  X_u_dot : ℚ
  Y_v_dot : ℚ
  N_r_dot : ℚ
  Lpp : ℚ
  B : ℚ
  T : ℚ
  rho_water : ℚ
  rpm_min : ℚ
  rpm_max : ℚ
  rudder_min : ℚ
  rudder_max : ℚ
  hull_params : PyDict := PyDict.empty
  prop_params : PropParams := {}
  rudder_params : PyDict := PyDict.empty
  current_params : PyDict := PyDict.empty
  deriving Repr, DecidableEq

/-- Optional axis-aligned position box from SimulationConfig.termination_bounds;
a Python dict probed with "x_min" in bounds etc. -/
structure TerminationBounds where
  x_min : Option ℚ := none
  x_max : Option ℚ := none
  y_min : Option ℚ := none
  y_max : Option ℚ := none
  deriving Repr, DecidableEq

/-- SimulationConfig from src/maris/core/types.py (fields used by the core;
decimation factors are Python ints). -/
structure SimulationConfig where
  t0 : ℚ
  t_end : ℚ
  dt : ℚ
  output_decimation : ℤ := 1
  stream_decimation : ℤ := 1
  termination_bounds : Option TerminationBounds := none
  deriving Repr, DecidableEq

/-- validate_params from src/maris/core/validation.py lines 10-18.  The
math.isfinite(params.m) and math.isfinite(params.Iz) guards are vacuous on
the rational model (every ℚ is finite) and are omitted. -/
def validate_params (params : VesselParams) : Except PyErr Unit :=
  if params.m ≤ 0 then .error (.configError "Invalid mass m")
  else if params.Iz ≤ 0 then .error (.configError "Invalid yaw inertia Iz")
  else if params.rpm_min ≥ params.rpm_max then
    .error (.configError "rpm_min must be < rpm_max")
  else if params.rudder_min ≥ params.rudder_max then
    .error (.configError "rudder_min must be < rudder_max")
  else .ok ()

/-- validate_config from src/maris/core/validation.py lines 21-29.  The
isfinite guards on dt, t_end, t0 are vacuous on ℚ and omitted; note the
source compares t_end with 0, never with t0. -/
def validate_config (cfg : SimulationConfig) : Except PyErr Unit :=
  if cfg.dt ≤ 0 then .error (.configError "dt must be gt 0")
  else if cfg.t_end ≤ 0 then .error (.configError "t_end must be gt 0")
  else if cfg.output_decimation ≤ 0 ∨ cfg.stream_decimation ≤ 0 then
    .error (.configError "decimation factors must be positive integers")
  else .ok ()

/-- check_finite_state from src/maris/core/validation.py lines 37-48: every
component of a rational-valued state is finite, so the check always
succeeds in the model. -/
def check_finite_state (_state : VesselState) : Except PyErr Unit := .ok ()

/-- validate_initial_state from src/maris/core/validation.py lines 32-34. -/
def validate_initial_state (state : VesselState) (_params : VesselParams) :
    Except PyErr Unit :=
  check_finite_state state

/-- check_bounds_control from src/maris/core/validation.py lines 51-59
(finiteness guards vacuous on ℚ and omitted; the interpolated bounds in the
rpm message are elided). -/
def check_bounds_control (control : ControlInput) (params : VesselParams) :
    Except PyErr Unit :=
  if control.rpm < params.rpm_min ∨ control.rpm > params.rpm_max then
    .error (.numericalInstability "Control rpm out of bounds")
  else if control.rudder_angle < params.rudder_min ∨
      control.rudder_angle > params.rudder_max then
    .error (.numericalInstability "Control rudder_angle out of bounds")
  else .ok ()

/-- detect_numerical_issue from src/maris/core/validation.py lines 68-74:
finiteness of the post state (vacuous on ℚ), then the position-jump guard
with threshold 1e6. -/
def detect_numerical_issue (state_before state_after : VesselState) :
    Except PyErr Unit := do
  check_finite_state state_after
  let dx := |state_after.x - state_before.x|
  let dy := |state_after.y - state_before.y|
  if dx > 1000000 ∨ dy > 1000000 then
    .error (.numericalInstability "Unrealistic position jump detected")
  else .ok ()

/-- apply_termination_bounds from src/maris/core/validation.py lines 77-87. -/
def apply_termination_bounds (state : VesselState) (cfg : SimulationConfig) :
    Option String :=
  let bounds := cfg.termination_bounds.getD {}
  if bounds.x_min.any (fun b => state.x < b) then some "x below bound"
  else if bounds.x_max.any (fun b => state.x > b) then some "x above bound"
  else if bounds.y_min.any (fun b => state.y < b) then some "y below bound"
  else if bounds.y_max.any (fun b => state.y > b) then some "y above bound"
  else none

/-- PIDConfig from src/maris/control/pid.py lines 9-15. -/
structure PIDConfig where
  kp : ℚ
  ki : ℚ
  kd : ℚ
  u_min : ℚ
  u_max : ℚ
  deriving Repr, DecidableEq

/-- Python float modulo a % b for a nonzero divisor b: a - b * floor(a / b)
(the result carries the sign of the divisor). -/
def pymod (a b : ℚ) : ℚ := a - b * (⌊a / b⌋ : ℤ)

/-- Heading-error wrap from RatePIDAutopilot.update lines 57-58:
dpsi = target - psi; dpsi = (dpsi + pi) % (2 * pi) - pi. -/
def heading_error (target psi : ℚ) : ℚ :=
  pymod ((target - psi) + piQ) (2 * piQ) - piQ

/-- The (dt, de) pair computed at lines 39-44 of
RatePIDAutopilot._pid_step: zero on the first call (last_t None), else
dt = max(1e-9, t - last_t) and de the backward difference quotient.
Python reads (last_err or 0.0), which is 0.0 both when last_err is None
and when it is 0.0, hence Option.getD 0. -/
def pid_dtde (t err : ℚ) (last_err : Option ℚ) (last_t : Option ℚ) : ℚ × ℚ :=
  match last_t with
  | none => (0, 0)
  | some lt =>
    let dt := max (1 / 1000000000) (t - lt)
    (dt, (err - last_err.getD 0) / dt)

/-- Result of one _pid_step call (src/maris/control/pid.py lines 38-52);
u is the unsaturated PID output computed at line 46; the Python function
returns the triple (u_sat, e_int, err). -/
structure PIDStepOut where
  u : ℚ
  u_sat : ℚ
  e_int : ℚ
  err : ℚ
  deriving Repr, DecidableEq

/-- RatePIDAutopilot._pid_step from src/maris/control/pid.py lines 38-52:
accumulate the integral, form the PID output, saturate it to
[u_min, u_max], and freeze the integrator when the output was clipped. -/
def pid_step (t err : ℚ) (cfg : PIDConfig) (last_err : Option ℚ)
    (e_int : ℚ) (last_t : Option ℚ) : PIDStepOut :=
  let dtde := pid_dtde t err last_err last_t
  let e_int_new := e_int + err * dtde.1
  let u := cfg.kp * err + cfg.ki * e_int_new + cfg.kd * dtde.2
  let u_sat := max cfg.u_min (min cfg.u_max u)
  ⟨u, u_sat, if u ≠ u_sat then e_int else e_int_new, err⟩

/-- Mutable per-axis integrator state of RatePIDAutopilot (fields
_e_int_*, _last_*_err and _last_t of src/maris/control/pid.py lines
24-29). -/
structure PIDAxisState where
  e_int : ℚ
  last_err : Option ℚ
  last_t : Option ℚ
  deriving Repr, DecidableEq

/-- One update call as it affects a single axis: _pid_step consumes the
axis state, and update stores the returned integral, the returned error
and the call time (src/maris/control/pid.py lines 61-68). -/
def pid_axis_step (cfg : PIDConfig) (st : PIDAxisState) (inp : ℚ × ℚ) :
    PIDAxisState :=
  let out := pid_step inp.1 inp.2 cfg st.last_err st.e_int st.last_t
  ⟨out.e_int, some out.err, some inp.1⟩

/-- Specification predicate (not from the source): every step of the run
driven by the (time, error) input list has its unsaturated PID output
strictly outside the configured bounds. -/
def all_steps_saturated (cfg : PIDConfig) :
    PIDAxisState → List (ℚ × ℚ) → Bool
  | _, [] => true
  | st, inp :: rest =>
    let out := pid_step inp.1 inp.2 cfg st.last_err st.e_int st.last_t
    (decide (out.u < cfg.u_min ∨ out.u > cfg.u_max)) &&
      all_steps_saturated cfg (pid_axis_step cfg st inp) rest

/-- Helper: a value strictly outside a proper interval is changed by
clamping. -/
theorem clamp_ne_of_outside (umin umax u : ℚ) (hb : umin ≤ umax)
    (h : u < umin ∨ u > umax) : u ≠ max umin (min umax u) := by
  rcases h with h | h
  · intro heq
    have h1 := le_max_left umin (min umax u)
    rw [← heq] at h1
    linarith
  · intro heq
    have h1 : max umin (min umax u) ≤ umax := max_le hb (min_le_left _ _)
    rw [← heq] at h1
    linarith

/-- Helper: the integral output of pid_step, written through its own
projections (definitional unfolding). -/
theorem pid_step_e_int_eq (t err : ℚ) (cfg : PIDConfig)
    (last_err : Option ℚ) (e_int : ℚ) (last_t : Option ℚ) :
    (pid_step t err cfg last_err e_int last_t).e_int =
      if (pid_step t err cfg last_err e_int last_t).u ≠
          max cfg.u_min (min cfg.u_max
            (pid_step t err cfg last_err e_int last_t).u) then e_int
      else e_int + err * (pid_dtde t err last_err last_t).1 := rfl

/-- Helper: a saturated step leaves the integral accumulator unchanged. -/
theorem pid_step_freeze (t err : ℚ) (cfg : PIDConfig) (last_err : Option ℚ)
    (e_int : ℚ) (last_t : Option ℚ) (hb : cfg.u_min ≤ cfg.u_max)
    (hsat : (pid_step t err cfg last_err e_int last_t).u < cfg.u_min ∨
      (pid_step t err cfg last_err e_int last_t).u > cfg.u_max) :
    (pid_step t err cfg last_err e_int last_t).e_int = e_int := by
  rw [pid_step_e_int_eq]
  rw [if_pos (clamp_ne_of_outside cfg.u_min cfg.u_max _ hb hsat)]

/-- Helper: a run of saturated steps leaves the accumulator at its initial
value. -/
theorem pid_axis_run_freeze (cfg : PIDConfig) (hb : cfg.u_min ≤ cfg.u_max) :
    ∀ (l : List (ℚ × ℚ)) (st : PIDAxisState),
      all_steps_saturated cfg st l = true →
      (List.foldl (pid_axis_step cfg) st l).e_int = st.e_int := by
  intro l
  induction l with
  | nil => intro st _; rfl
  | cons inp rest ih =>
    intro st hsat
    rw [all_steps_saturated] at hsat
    simp only [Bool.and_eq_true, decide_eq_true_eq] at hsat
    rw [List.foldl_cons, ih _ hsat.2]
    show (pid_step inp.1 inp.2 cfg st.last_err st.e_int st.last_t).e_int =
      st.e_int
    exact pid_step_freeze inp.1 inp.2 cfg st.last_err st.e_int st.last_t hb
      hsat.1

/-- C4: a PID axis step whose unsaturated output lies strictly outside the
configured rate bounds [u_min, u_max] leaves the integral accumulator of
that axis unchanged, and after any run of consecutive saturated steps the
accumulator equals its pre-saturation value. -/
theorem C4_pid_antiwindup (cfg : PIDConfig) (hb : cfg.u_min ≤ cfg.u_max) :
    (∀ (t err : ℚ) (last_err : Option ℚ) (e_int : ℚ) (last_t : Option ℚ),
      ((pid_step t err cfg last_err e_int last_t).u < cfg.u_min ∨
        (pid_step t err cfg last_err e_int last_t).u > cfg.u_max) →
      (pid_step t err cfg last_err e_int last_t).e_int = e_int) ∧
    (∀ (l : List (ℚ × ℚ)) (st : PIDAxisState),
      all_steps_saturated cfg st l = true →
      (List.foldl (pid_axis_step cfg) st l).e_int = st.e_int) := by
  constructor
  · intro t err last_err e_int last_t hsat
    exact pid_step_freeze t err cfg last_err e_int last_t hb hsat
  · intro l st hsat
    exact pid_axis_run_freeze cfg hb l st hsat

/-- Witness for C4: a gain/bound configuration with kp = ki = 1, kd = 0,
bounds [-1, 1], driven for two steps by error 5; both steps saturate and
the accumulator stays at 0. -/
theorem C4_pid_antiwindup_witness :
    (List.foldl (pid_axis_step ⟨1, 1, 0, -1, 1⟩)
      ⟨0, none, none⟩ [((0 : ℚ), (5 : ℚ)), (1, 5)]).e_int = 0 :=
  (C4_pid_antiwindup ⟨1, 1, 0, -1, 1⟩ (by norm_num)).2
    [((0 : ℚ), (5 : ℚ)), (1, 5)] ⟨0, none, none⟩
    (by norm_num [all_steps_saturated, pid_axis_step, pid_step, pid_dtde,
      max_def, min_def])

/-- Helper: pymod with a positive divisor equals the divisor times the
fractional part of the quotient. -/
theorem pymod_eq_mul_fract (a b : ℚ) (hb : b ≠ 0) :
    pymod a b = b * Int.fract (a / b) := by
  unfold pymod Int.fract
  field_simp

/-- Helper: Python modulo with a positive divisor is nonnegative. -/
theorem pymod_nonneg (a b : ℚ) (hb : 0 < b) : 0 ≤ pymod a b := by
  rw [pymod_eq_mul_fract a b (ne_of_gt hb)]
  exact mul_nonneg hb.le (Int.fract_nonneg _)

/-- Helper: Python modulo with a positive divisor is below the divisor. -/
theorem pymod_lt (a b : ℚ) (hb : 0 < b) : pymod a b < b := by
  rw [pymod_eq_mul_fract a b (ne_of_gt hb)]
  calc b * Int.fract (a / b) < b * 1 :=
        mul_lt_mul_of_pos_left (Int.fract_lt_one _) hb
    _ = b := mul_one b

/-- Helper: piQ is positive. -/
theorem piQ_pos : (0 : ℚ) < piQ := by rw [piQ]; norm_num

/-- C5 counterexample: at target = pi and heading = 0 the raw difference is
exactly pi and the computed heading error is -pi, which does not lie in the
half-open interval (-pi, pi] asserted by the claim (the code wraps into
[-pi, pi) instead). -/
theorem C5_wrap_counterexample :
    heading_error piQ 0 = -piQ ∧ heading_error piQ 0 ∉ Set.Ioc (-piQ) piQ := by
  have h2 : (piQ - 0 + piQ) / (2 * piQ) = 1 := by
    rw [div_eq_one_iff_eq (by rw [piQ]; norm_num)]
    ring
  have h : heading_error piQ 0 = -piQ := by
    unfold heading_error pymod
    rw [h2, Int.floor_one]
    push_cast
    ring
  refine ⟨h, ?_⟩
  rw [h]
  simp [Set.mem_Ioc]

/-- C5 (amended): the heading error equals the raw difference
target - psi shifted by an integer multiple of 2*pi into the half-open
interval [-pi, pi); for target 0.1 rad and heading 2*pi - 0.05 rad it is
exactly 0.15 in the rational model. -/
theorem C5_heading_error_wrapped (target psi : ℚ) :
    heading_error target psi ∈ Set.Ico (-piQ) piQ ∧
    (∃ k : ℤ, heading_error target psi = (target - psi) - 2 * piQ * k) ∧
    heading_error (1 / 10) (2 * piQ - 1 / 20) = 3 / 20 := by
  have hb : (0 : ℚ) < 2 * piQ := by linarith [piQ_pos]
  refine ⟨?_, ?_, ?_⟩
  · rw [Set.mem_Ico]
    unfold heading_error
    constructor
    · have := pymod_nonneg ((target - psi) + piQ) (2 * piQ) hb
      linarith
    · have := pymod_lt ((target - psi) + piQ) (2 * piQ) hb
      linarith
  · refine ⟨⌊((target - psi) + piQ) / (2 * piQ)⌋, ?_⟩
    unfold heading_error pymod
    ring
  · have ha : (1 / 10 - (2 * piQ - 1 / 20)) + piQ = 3 / 20 - piQ := by ring
    unfold heading_error pymod
    rw [ha]
    have harg : ((3 : ℚ) / 20 - piQ) / (2 * piQ) =
        ((3 : ℚ) / 20 - 884279719003555 / 281474976710656) /
          (2 * (884279719003555 / 281474976710656)) := by rw [piQ]
    have hf : (⌊((3 : ℚ) / 20 - piQ) / (2 * piQ)⌋ : ℤ) = -1 := by
      rw [harg, Int.floor_eq_iff]
      constructor
      · rw [le_div_iff₀ (by norm_num)]
        norm_num
      · rw [div_lt_iff₀ (by norm_num)]
        norm_num
    rw [hf]
    push_cast
    ring

/-- Uninterpreted transcendental float operations: math.cos, math.sin, and
x ** 0.5.  They have no exact rational counterpart, so the embedding is
parametric in them. -/
structure TranscOps where
  cosQ : ℚ → ℚ
  sinQ : ℚ → ℚ
  sqrtQ : ℚ → ℚ

/-- Body-fixed force triplet returned by every force module. -/
structure F3 where
  X : ℚ
  Y : ℚ
  N : ℚ
  deriving Repr, DecidableEq

/-- math.copysign(a, b): magnitude of a with the sign of b (the b = -0.0
float edge case does not arise in the rational model). -/
def pycopysign (a b : ℚ) : ℚ := if b < 0 then -|a| else |a|

/-- HullForce.compute from src/maris/forces/hull.py lines 27-89: linear and
quadratic damping plus MMG cross-coupling terms, with fixed defaults when a
coefficient is absent.  No operation can raise, hence always ok. -/
def hull_compute (state : VesselState) (_control : ControlInput)
    (_env : EnvironmentSample) (params : VesselParams) : Except PyErr F3 :=
  let hp := params.hull_params
  let Xu := hp.getD "Xu" (-50000)
  let Xuu := hp.getD "Xuu" (-5000)
  let Yv := hp.getD "Yv" (-1000000)
  let Yvv := hp.getD "Yvv" (-50000)
  let Nr := hp.getD "Nr" (-100000000)
  let Nrr := hp.getD "Nrr" (-5000000)
  let Yuv := hp.getD "Yuv" (-200000)
  let Yur := hp.getD "Yur" 1000000
  let Nuv := hp.getD "Nuv" (-50000000)
  let Nur := hp.getD "Nur" (-200000000)
  let Xvr := hp.getD "Xvr" (-200000)
  let Xvv := hp.getD "Xvv" (-10000)
  let Xrr := hp.getD "Xrr" (-1000000)
  let Yvr := hp.getD "Yvr" (-500000)
  let Nvv := hp.getD "Nvv" (-10000000)
  let u := state.u
  let v := state.v
  let r := state.r
  .ok ⟨Xu * u + Xuu * u * |u| + Xvr * v * r + Xvv * v * |v| + Xrr * r * |r|,
    Yv * v + Yvv * v * |v| + Yuv * u * v + Yur * u * r + Yvr * v * r,
    Nr * r + Nrr * r * |r| + Nuv * u * v + Nur * u * r + Nvv * v * |v|⟩

/-- PropulsionForce.compute from src/maris/forces/propulsion.py lines
23-86.  The advance-ratio division Va / (n * diameter) is guarded on n
alone, so it raises ZeroDivisionError when diameter = 0 and n > 1e-6;
J_opt is the literal 0.7 so the J_opt > 0 guard is always true. -/
def propulsion_compute (state : VesselState) (control : ControlInput)
    (_env : EnvironmentSample) (params : VesselParams) : Except PyErr F3 := do
  let pp := params.prop_params
  let T0 := pp.g "T0" 0
  let T1 := pp.g "T1" 0
  let T2 := pp.g "T2" 50
  let steer_gain := pp.g "steer_gain" (1 / 100)
  let x_prop := pp.g "x_prop" (-(1 / 2) * params.Lpp)
  let diameter := pp.g "diameter" ((1 / 10) * params.Lpp)
  let wake_fraction := pp.g "wake_fraction" (3 / 10)
  let thrust_deduction := pp.g "thrust_deduction" (1 / 5)
  let efficiency_max := pp.g "efficiency_max" (7 / 10)
  let rpm := control.rpm
  let efficiency ←
    if |rpm| > 1 / 1000000 then do
      let Va := state.u * (1 - wake_fraction)
      let n := |rpm| / 60
      let J ←
        if n > 1 / 1000000 then
          if n * diameter = 0 then Except.error PyErr.zeroDivision
          else Except.ok (Va / (n * diameter))
        else Except.ok 0
      if J ≤ 7 / 10 then Except.ok (efficiency_max * (J / (7 / 10)))
      else Except.ok (efficiency_max * max 0 (1 - (1 / 2) * (J - 7 / 10)))
    else Except.ok 0
  let thrust_base := T0 + T1 * rpm + T2 * rpm * |rpm|
  let thrust_effective := thrust_base * efficiency * (1 - thrust_deduction)
  let Y := steer_gain * thrust_effective * control.rudder_angle
  Except.ok ⟨thrust_effective, Y, -Y * x_prop⟩

/-- RudderForce.compute from src/maris/forces/rudder.py lines 22-90.
rho_water is always finite on ℚ, so the isfinite fallback to 1025 never
triggers.  Divisions by stall_angle (post-stall lift and angle drag) and by
pi * aspect_ratio (induced drag) raise ZeroDivisionError when the
denominator is zero. -/
def rudder_compute (ops : TranscOps) (state : VesselState)
    (control : ControlInput) (_env : EnvironmentSample)
    (params : VesselParams) : Except PyErr F3 := do
  let rp := params.rudder_params
  let S := rp.getD "area" (max 1 ((1 / 50) * params.Lpp * params.T))
  let a_lift := rp.getD "a_lift" (157 / 25)
  let c_drag_0 := rp.getD "c_drag" (2 / 25)
  let x_r := rp.getD "x_rudder" (-(9 / 20) * params.Lpp)
  let stall_angle := rp.getD "stall_angle" (7 / 20)
  let slipstream_factor := rp.getD "slipstream_factor" (3 / 2)
  let ar := rp.getD "aspect_ratio" 2
  let rho := params.rho_water
  let V_hull := max 0 (ops.sqrtQ (state.u ^ 2 + (1 / 4) * state.v ^ 2))
  let rpm := |control.rpm|
  let V_effective :=
    if rpm > 1 / 1000000 then
      max V_hull (slipstream_factor * V_hull * min 1 (rpm / 50))
    else V_hull
  let q := (1 / 2) * rho * V_effective * V_effective
  let delta := control.rudder_angle
  let delta_abs := |delta|
  let Cl ←
    if delta_abs ≤ stall_angle then Except.ok (a_lift * delta)
    else if stall_angle = 0 then Except.error PyErr.zeroDivision
    else
      Except.ok (pycopysign ((a_lift * stall_angle) *
        max (3 / 10) (1 - (1 / 2) * (delta_abs - stall_angle) / stall_angle))
        delta)
  let induced ←
    if piQ * ar = 0 then Except.error PyErr.zeroDivision
    else Except.ok (Cl * Cl / (piQ * ar))
  let angle_drag ←
    if stall_angle = 0 then Except.error PyErr.zeroDivision
    else Except.ok (c_drag_0 * (delta_abs / stall_angle) ^ 2)
  let Cd := c_drag_0 + induced + angle_drag
  let Y := q * S * Cl
  Except.ok ⟨-(q * S * Cd), Y, -Y * x_r⟩

/-- WindForce.compute from src/maris/forces/wind.py lines 32-79, with the
constructor tunables as parameters (defaults cx = 0.8, cy = 1.0,
area_ref = None, lever_coeff = 0.5).  No operation can raise. -/
def wind_compute (ops : TranscOps) (cx cy : ℚ) (area_ref : Option ℚ)
    (lever_coeff : ℚ) (state : VesselState) (_control : ControlInput)
    (env : EnvironmentSample) (params : VesselParams) : Except PyErr F3 :=
  let rho_air : ℚ := 49 / 40
  let A := area_ref.getD (params.B * params.T)
  let Vw := max 0 env.wind_speed
  let theta_to := env.wind_dir_from + piQ
  let wwx := Vw * ops.cosQ theta_to
  let wwy := Vw * ops.sinQ theta_to
  let c := ops.cosQ state.psi
  let s := ops.sinQ state.psi
  let awx := wwx - (state.u * c - state.v * s)
  let awy := wwy - (state.u * s + state.v * c)
  let c_body := ops.cosQ (-state.psi)
  let s_body := ops.sinQ (-state.psi)
  let wx := c_body * awx - s_body * awy
  let wy := s_body * awx + c_body * awy
  let X := -(1 / 2) * rho_air * cx * A * wx * |wx|
  let Y := -(1 / 2) * rho_air * cy * A * wy * |wy|
  .ok ⟨X, Y, Y * (lever_coeff * params.Lpp)⟩

/-- CurrentForce.compute from src/maris/forces/current.py lines 38-92, with
the constructor tunables as parameters (defaults kx_linear = 5e4,
ky_linear = 1e5, kx_quad = 2e3, ky_quad = 5e3, lever_coeff = 0.5).
EnvironmentSample has no depth attribute, so the hasattr(env, "depth")
branch never runs and depth_factor is always 1.  No operation can raise. -/
def current_compute (ops : TranscOps) (kx_linear0 ky_linear0 kx_quad0
    ky_quad0 lever_coeff : ℚ) (state : VesselState)
    (_control : ControlInput) (env : EnvironmentSample)
    (params : VesselParams) : Except PyErr F3 :=
  let cp := params.current_params
  let kxl := cp.getD "kx_linear" kx_linear0
  let kyl := cp.getD "ky_linear" ky_linear0
  let kxq := cp.getD "kx_quad" kx_quad0
  let kyq := cp.getD "ky_quad" ky_quad0
  let Vc := max 0 env.current_speed
  let cwx := Vc * ops.cosQ env.current_dir_to
  let cwy := Vc * ops.sinQ env.current_dir_to
  let c := ops.cosQ (-state.psi)
  let s := ops.sinQ (-state.psi)
  let rel_u := state.u - (c * cwx - s * cwy)
  let rel_v := state.v - (s * cwx + c * cwy)
  let depth_factor : ℚ := 1
  let X := depth_factor * (-(kxl * rel_u) + -(kxq * rel_u * |rel_u|))
  let Y := depth_factor * (-(kyl * rel_v) + -(kyq * rel_v * |rel_v|))
  .ok ⟨X, Y, Y * (lever_coeff * params.Lpp)⟩

/-- BowThrusterForce.compute from src/maris/forces/bow_thruster.py lines
31-82.  VesselParams has no thruster_params attribute, so the hasattr
guard yields the empty dict and the parameter reads at lines 39-48 all
succeed with their defaults (bound here as dead lets); line 51 then reads
control.bow_thruster_force, a field the ControlInput dataclass does not
define, so every call raises AttributeError there and the remainder of the
body is unreachable. -/
def bow_thruster_compute (_state : VesselState) (_control : ControlInput)
    (_env : EnvironmentSample) (params : VesselParams) : Except PyErr F3 :=
  let _max_force : ℚ := 150000
  let _efficiency : ℚ := 17 / 20
  let _position_x : ℚ := (2 / 5) * params.Lpp
  .error (.attributeError "bow_thruster_force")

/-- SternThrusterForce.compute from src/maris/forces/stern_thruster.py
lines 31-89.  Same shape as the bow thruster: the parameter reads at lines
39-48 succeed (dead lets), then line 51 reads control.stern_thruster_force,
a field the ControlInput dataclass does not define, so every call raises
AttributeError there. -/
def stern_thruster_compute (_state : VesselState) (_control : ControlInput)
    (_env : EnvironmentSample) (params : VesselParams) : Except PyErr F3 :=
  let _max_force : ℚ := 100000
  let _efficiency : ℚ := 4 / 5
  let _position_x : ℚ := -(2 / 5) * params.Lpp
  .error (.attributeError "stern_thruster_force")

/-- Aggregated forces with per-module breakdown, the dict returned by
MMG3DOFModel._sum_forces. -/
structure ForcesOut where
  X : ℚ
  Y : ℚ
  N : ℚ
  components : List (String × F3)
  deriving Repr, DecidableEq

/-- MMG3DOFModel._sum_forces from src/maris/models/mmg3dof/model.py lines
47-69: the five default modules (hull, propulsion, rudder, wind, current;
provided by __post_init__ when none are passed) evaluated in the fixed
source order, totals accumulated left to right, per-module triplets kept.
Wind and current use their constructor-default tunables. -/
def mmg_sum_forces (ops : TranscOps) (state : VesselState)
    (control : ControlInput) (env : EnvironmentSample)
    (params : VesselParams) : Except PyErr ForcesOut := do
  let h ← hull_compute state control env params
  let p ← propulsion_compute state control env params
  let ru ← rudder_compute ops state control env params
  let w ← wind_compute ops (4 / 5) 1 none (1 / 2) state control env params
  let cu ← current_compute ops 50000 100000 2000 5000 (1 / 2)
    state control env params
  .ok ⟨h.X + p.X + ru.X + w.X + cu.X,
    h.Y + p.Y + ru.Y + w.Y + cu.Y,
    h.N + p.N + ru.N + w.N + cu.N,
    [("hull", h), ("propulsion", p), ("rudder", ru), ("wind", w),
      ("current", cu)]⟩

/-- MMG3DOFModel.forces from src/maris/models/mmg3dof/model.py lines 72-74:
control-bounds validation, then force aggregation. -/
def mmg_forces (ops : TranscOps) (state : VesselState)
    (control : ControlInput) (env : EnvironmentSample)
    (params : VesselParams) : Except PyErr ForcesOut := do
  check_bounds_control control params
  mmg_sum_forces ops state control env params

/-- MMG3DOFModel.f from src/maris/models/mmg3dof/model.py lines 76-105:
kinematics, aggregated forces (without any bounds validation), and the
added-mass-corrected accelerations with denominators floored at 1e-6
(hence nonzero, so the divisions cannot raise). -/
def mmg_f (ops : TranscOps) (_t : ℚ) (state : VesselState)
    (control : ControlInput) (env : EnvironmentSample)
    (params : VesselParams) : Except PyErr Derivatives := do
  let c := ops.cosQ state.psi
  let s := ops.sinQ state.psi
  let dx := state.u * c - state.v * s
  let dy := state.u * s + state.v * c
  let F ← mmg_sum_forces ops state control env params
  let m_eff_x := max (1 / 1000000) (params.m - params.X_u_dot)
  let m_eff_y := max (1 / 1000000) (params.m - params.Y_v_dot)
  let Iz_eff := max (1 / 1000000) (params.Iz - params.N_r_dot)
  let coriolis_x := -params.m * state.v * state.r
  let coriolis_y := params.m * state.u * state.r
  .ok ⟨dx, dy, state.r, (F.X + coriolis_x) / m_eff_x,
    (F.Y + coriolis_y) / m_eff_y, F.N / Iz_eff⟩

/-- The six-element state vector handed to the ODE solver, in the order
[x, y, psi, u, v, r] (src/maris/sim/runner.py lines 213-223). -/
structure Vec6 where
  x : ℚ
  y : ℚ
  psi : ℚ
  u : ℚ
  v : ℚ
  r : ℚ
  deriving Repr, DecidableEq

/-- MMG3DOFModel.unpack_state_vector from src/maris/models/mmg3dof/model.py
lines 108-111: the t field is not stored in the vector and is set to 0. -/
def unpack_state_vector (y : Vec6) : VesselState :=
  ⟨0, y.x, y.y, y.psi, y.u, y.v, y.r⟩

/-- MMG3DOFModel.pack_state_derivative from src/maris/models/mmg3dof/model.py
lines 113-114. -/
def pack_state_derivative (d : Derivatives) : Vec6 :=
  ⟨d.dx, d.dy, d.dpsi, d.du, d.dv, d.dr⟩

/-- MMG3DOFModel.get_initial_state_vector from
src/maris/models/mmg3dof/model.py lines 116-117: the t field is dropped. -/
def get_initial_state_vector (s : VesselState) : Vec6 :=
  ⟨s.x, s.y, s.psi, s.u, s.v, s.r⟩

/-- C6 counterexample: for the state with t = 1 (all spatial components
fixed), packing then unpacking does not return the state exactly — the
time field comes back as 0. -/
theorem C6_roundtrip_counterexample :
    unpack_state_vector (get_initial_state_vector ⟨1, 2, 3, 4, 5, 6, 7⟩) ≠
      (⟨1, 2, 3, 4, 5, 6, 7⟩ : VesselState) := by
  intro h
  have ht := congrArg VesselState.t h
  norm_num [unpack_state_vector, get_initial_state_vector] at ht

/-- C6 (amended): vector-to-state-to-vector is the identity on all
six-element vectors, and state-to-vector-to-state returns the state with
its time field reset to 0 (so it is the identity exactly on states with
t = 0). -/
theorem C6_pack_unpack_roundtrip (y : Vec6) (s : VesselState) :
    get_initial_state_vector (unpack_state_vector y) = y ∧
    unpack_state_vector (get_initial_state_vector s) = { s with t := 0 } :=
  ⟨rfl, rfl⟩

/-- Helper: piQ is nonzero. -/
theorem piQ_ne_zero : piQ ≠ 0 := ne_of_gt piQ_pos

/-- Helper: bind of a successful Except computation. -/
theorem exc_bind_ok {α β : Type} (a : α) (f : α → Except PyErr β) :
    Bind.bind (Except.ok a) f = f a := rfl

/-- Helper: bind of a failed Except computation. -/
theorem exc_bind_error {α β : Type} (e : PyErr) (f : α → Except PyErr β) :
    Bind.bind (Except.error e) f = Except.error e := rfl

/-- Helper: hull_compute never fails. -/
theorem hull_compute_ok (s : VesselState) (c : ControlInput)
    (e : EnvironmentSample) (p : VesselParams) :
    ∃ v, hull_compute s c e p = .ok v := ⟨_, rfl⟩

/-- Helper: wind_compute never fails. -/
theorem wind_compute_ok (ops : TranscOps) (cx cy : ℚ) (ar : Option ℚ)
    (lc : ℚ) (s : VesselState) (c : ControlInput) (e : EnvironmentSample)
    (p : VesselParams) :
    ∃ v, wind_compute ops cx cy ar lc s c e p = .ok v := ⟨_, rfl⟩

/-- Helper: current_compute never fails. -/
theorem current_compute_ok (ops : TranscOps) (a b c0 d lc : ℚ)
    (s : VesselState) (c : ControlInput) (e : EnvironmentSample)
    (p : VesselParams) :
    ∃ v, current_compute ops a b c0 d lc s c e p = .ok v := ⟨_, rfl⟩

/-- Helper: propulsion_compute succeeds whenever the propeller diameter
parameter is nonzero. -/
theorem propulsion_compute_ok (s : VesselState) (c : ControlInput)
    (e : EnvironmentSample) (p : VesselParams)
    (hdia : p.prop_params.g "diameter" ((1 / 10) * p.Lpp) ≠ 0) :
    ∃ v, propulsion_compute s c e p = .ok v := by
  unfold propulsion_compute
  dsimp only [Except.bind]
  by_cases h1 : |c.rpm| > 1 / 1000000
  · by_cases h2 : |c.rpm| / 60 > 1 / 1000000
    · have h3 : ¬(|c.rpm| / 60 * p.prop_params.g "diameter"
          ((1 / 10) * p.Lpp) = 0) :=
        mul_ne_zero (ne_of_gt (lt_trans (by norm_num) h2)) hdia
      rw [if_pos h1, if_pos h2, if_neg h3]
      simp only [exc_bind_ok]
      split_ifs <;> exact ⟨_, rfl⟩
    · rw [if_pos h1, if_neg h2]
      simp only [exc_bind_ok]
      split_ifs <;> exact ⟨_, rfl⟩
  · rw [if_neg h1]
    exact ⟨_, rfl⟩

/-- Helper: rudder_compute succeeds whenever the aspect-ratio and
stall-angle parameters are nonzero. -/
theorem rudder_compute_ok (ops : TranscOps) (s : VesselState)
    (c : ControlInput) (e : EnvironmentSample) (p : VesselParams)
    (har : p.rudder_params.getD "aspect_ratio" 2 ≠ 0)
    (hsa : p.rudder_params.getD "stall_angle" (7 / 20) ≠ 0) :
    ∃ v, rudder_compute ops s c e p = .ok v := by
  unfold rudder_compute
  dsimp only
  have hpa : ¬(piQ * p.rudder_params.getD "aspect_ratio" 2 = 0) :=
    mul_ne_zero piQ_ne_zero har
  by_cases h1 : |c.rudder_angle| ≤ p.rudder_params.getD "stall_angle" (7 / 20)
  · simp only [if_pos h1, exc_bind_ok, if_neg hpa, if_neg hsa]
    exact ⟨_, rfl⟩
  · simp only [if_neg h1, if_neg hsa, exc_bind_ok, if_neg hpa]
    exact ⟨_, rfl⟩

/-- C8: the ControlInput dataclass defines no thruster command fields, so
both thruster force modules raise AttributeError on every call (finite or
not) instead of returning a force triplet. -/
theorem C8_thruster_attribute_error (state : VesselState)
    (control : ControlInput) (env : EnvironmentSample)
    (params : VesselParams) :
    bow_thruster_compute state control env params =
      .error (.attributeError "bow_thruster_force") ∧
    stern_thruster_compute state control env params =
      .error (.attributeError "stern_thruster_force") := ⟨rfl, rfl⟩

/-- Helper: the force aggregation succeeds whenever the rudder aspect
ratio, stall angle and propeller diameter parameters are nonzero. -/
theorem mmg_sum_forces_ok (ops : TranscOps) (s : VesselState)
    (c : ControlInput) (e : EnvironmentSample) (p : VesselParams)
    (har : p.rudder_params.getD "aspect_ratio" 2 ≠ 0)
    (hsa : p.rudder_params.getD "stall_angle" (7 / 20) ≠ 0)
    (hdia : p.prop_params.g "diameter" ((1 / 10) * p.Lpp) ≠ 0) :
    ∃ F, mmg_sum_forces ops s c e p = .ok F := by
  obtain ⟨vp, hp⟩ := propulsion_compute_ok s c e p hdia
  obtain ⟨vr, hr⟩ := rudder_compute_ok ops s c e p har hsa
  apply Exists.intro
  simp only [mmg_sum_forces, hull_compute, wind_compute, current_compute,
    hp, hr, exc_bind_ok]
  exact rfl

/-- C10: the derivative entry point f never performs the control-bounds
check — it returns a Derivatives value even for out-of-bounds rpm or
rudder commands — while the forces entry point raises
NumericalInstability for the same control.  (The auxiliary nonzero-
parameter hypotheses rule out the independent ZeroDivisionError paths of
the propulsion and rudder modules.) -/
theorem C10_f_skips_bounds_check (ops : TranscOps) (t : ℚ)
    (state : VesselState) (control : ControlInput)
    (env : EnvironmentSample) (params : VesselParams)
    (hoob : control.rpm < params.rpm_min ∨ control.rpm > params.rpm_max ∨
      control.rudder_angle < params.rudder_min ∨
      control.rudder_angle > params.rudder_max)
    (har : params.rudder_params.getD "aspect_ratio" 2 ≠ 0)
    (hsa : params.rudder_params.getD "stall_angle" (7 / 20) ≠ 0)
    (hdia : params.prop_params.g "diameter" ((1 / 10) * params.Lpp) ≠ 0) :
    (∃ d, mmg_f ops t state control env params = .ok d) ∧
    (∃ msg, mmg_forces ops state control env params =
      .error (.numericalInstability msg)) := by
  obtain ⟨F, hF⟩ := mmg_sum_forces_ok ops state control env params har hsa
    hdia
  constructor
  · apply Exists.intro
    simp only [mmg_f, hF, exc_bind_ok]
    exact rfl
  · by_cases hrpm : control.rpm < params.rpm_min ∨
        control.rpm > params.rpm_max
    · refine ⟨"Control rpm out of bounds", ?_⟩
      simp only [mmg_forces, check_bounds_control, if_pos hrpm,
        exc_bind_error]
    · have hrud : control.rudder_angle < params.rudder_min ∨
          control.rudder_angle > params.rudder_max := by
        rcases hoob with h | h | h | h
        · exact absurd (Or.inl h) hrpm
        · exact absurd (Or.inr h) hrpm
        · exact Or.inl h
        · exact Or.inr h
      refine ⟨"Control rudder_angle out of bounds", ?_⟩
      simp only [mmg_forces, check_bounds_control, if_neg hrpm,
        if_pos hrud, exc_bind_error]

/-- Transcendental operation bundle returning 0 everywhere; it satisfies
sqrt 0 = 0 and is used to instantiate parametric theorems at concrete
inputs. -/
def opsZero : TranscOps := ⟨fun _ => 0, fun _ => 0, fun _ => 0⟩

/-- Concrete vessel parameters with all module coefficient tables left at
their defaults. -/
def paramsDemo : VesselParams :=
  ⟨100000, 10000000, 0, 0, 0, 50, 10, 4, 1025, 0, 100, -1, 1,
    PyDict.empty, ⟨PyDict.empty, PyDict.empty⟩, PyDict.empty, PyDict.empty⟩

/-- Witness for C10: at rpm command 200 against the range [0, 100], f
returns a value and forces raises. -/
theorem C10_f_skips_bounds_check_witness :
    (∃ d, mmg_f opsZero 0 ⟨0, 0, 0, 0, 0, 0, 0⟩ ⟨200, 0, none, none⟩
      ⟨0, 0, 0, 0, none⟩ paramsDemo = .ok d) ∧
    (∃ msg, mmg_forces opsZero ⟨0, 0, 0, 0, 0, 0, 0⟩ ⟨200, 0, none, none⟩
      ⟨0, 0, 0, 0, none⟩ paramsDemo =
      .error (.numericalInstability msg)) :=
  C10_f_skips_bounds_check opsZero 0 ⟨0, 0, 0, 0, 0, 0, 0⟩
    ⟨200, 0, none, none⟩ ⟨0, 0, 0, 0, none⟩ paramsDemo
    (Or.inr (Or.inl (by norm_num [paramsDemo])))
    (by norm_num [paramsDemo, PyDict.getD, PyDict.find, PyDict.empty])
    (by norm_num [paramsDemo, PyDict.getD, PyDict.find, PyDict.empty])
    (by norm_num [paramsDemo, PropParams.g, PyDict.hasKey, PyDict.getD,
      PyDict.find, PyDict.empty])

/-- C7: for a state at rest (zero surge, sway and yaw rate), zero
commanded RPM, zero rudder angle and zero wind/current speeds, every
default force module returns the zero triplet and f returns the all-zero
Derivatives, for any position, heading, time and parameters (the nonzero
aspect-ratio/stall-angle hypotheses keep the rudder module on its
non-raising paths, and sqrt 0 = 0 is the only fact assumed about the
float square root). -/
theorem C7_rest_state_zero_derivatives (ops : TranscOps)
    (params : VesselParams) (t ts x0 y0 psi0 wd cd : ℚ)
    (th : Option ℚ) (nt : Option String) (ss : Option ℤ)
    (hsq : ops.sqrtQ 0 = 0)
    (har : params.rudder_params.getD "aspect_ratio" 2 ≠ 0)
    (hsa : params.rudder_params.getD "stall_angle" (7 / 20) ≠ 0) :
    mmg_f ops t ⟨ts, x0, y0, psi0, 0, 0, 0⟩ ⟨0, 0, th, nt⟩
      ⟨0, wd, 0, cd, ss⟩ params = .ok ⟨0, 0, 0, 0, 0, 0⟩ := by
  have hh : hull_compute ⟨ts, x0, y0, psi0, 0, 0, 0⟩ ⟨0, 0, th, nt⟩
      ⟨0, wd, 0, cd, ss⟩ params = .ok ⟨0, 0, 0⟩ := by
    simp [hull_compute]
  have hp : propulsion_compute ⟨ts, x0, y0, psi0, 0, 0, 0⟩ ⟨0, 0, th, nt⟩
      ⟨0, wd, 0, cd, ss⟩ params = .ok ⟨0, 0, 0⟩ := by
    norm_num [propulsion_compute, exc_bind_ok]
  have hw : wind_compute ops (4 / 5) 1 none (1 / 2)
      ⟨ts, x0, y0, psi0, 0, 0, 0⟩ ⟨0, 0, th, nt⟩ ⟨0, wd, 0, cd, ss⟩
      params = .ok ⟨0, 0, 0⟩ := by
    norm_num [wind_compute]
  have hc : current_compute ops 50000 100000 2000 5000 (1 / 2)
      ⟨ts, x0, y0, psi0, 0, 0, 0⟩ ⟨0, 0, th, nt⟩ ⟨0, wd, 0, cd, ss⟩
      params = .ok ⟨0, 0, 0⟩ := by
    norm_num [current_compute]
  have hpa : ¬(piQ * params.rudder_params.getD "aspect_ratio" 2 = 0) :=
    mul_ne_zero piQ_ne_zero har
  have hr : rudder_compute ops ⟨ts, x0, y0, psi0, 0, 0, 0⟩ ⟨0, 0, th, nt⟩
      ⟨0, wd, 0, cd, ss⟩ params = .ok ⟨0, 0, 0⟩ := by
    unfold rudder_compute
    dsimp only
    norm_num [hsq]
    by_cases hst : (0 : ℚ) ≤ params.rudder_params.getD "stall_angle" (7 / 20)
    · simp only [if_pos hst, exc_bind_ok, if_neg hpa, if_neg hsa]
      norm_num
      rintro (h | h)
      · exact absurd h piQ_ne_zero
      · exact absurd h har
    · simp only [if_neg hst, if_neg hsa, exc_bind_ok, if_neg hpa]
      norm_num
      rintro (h | h)
      · exact absurd h piQ_ne_zero
      · exact absurd h har
  simp only [mmg_f, mmg_sum_forces, hh, hp, hr, hw, hc, exc_bind_ok]
  norm_num

/-- Witness for C7: concrete rest state, zero control, calm environment,
default coefficient tables. -/
theorem C7_rest_state_zero_derivatives_witness :
    mmg_f opsZero 0 ⟨0, 0, 0, 0, 0, 0, 0⟩ ⟨0, 0, none, none⟩
      ⟨0, 0, 0, 0, none⟩ paramsDemo = .ok ⟨0, 0, 0, 0, 0, 0⟩ :=
  C7_rest_state_zero_derivatives opsZero paramsDemo 0 0 0 0 0 0 0 none none
    none rfl
    (by norm_num [paramsDemo, PyDict.getD, PyDict.find, PyDict.empty])
    (by norm_num [paramsDemo, PyDict.getD, PyDict.find, PyDict.empty])

/-- C9 counterexample: the configuration t0 = 5, t_end = 3, dt = 1 has a
non-positive time horizon (t_end below t0), yet validate_config accepts it
— the source compares t_end against 0, never against t0.  With valid
params, no ConfigError is raised before such a run starts. -/
theorem C9_validation_counterexample :
    validate_config ⟨5, 3, 1, 1, 1, none⟩ = .ok () ∧
    (⟨5, 3, 1, 1, 1, none⟩ : SimulationConfig).t_end ≤
      (⟨5, 3, 1, 1, 1, none⟩ : SimulationConfig).t0 := by
  constructor
  · norm_num [validate_config]
  · norm_num

/-- C9 (amended): on finite inputs, pre-run validation succeeds exactly
when mass and yaw inertia are positive, the rpm and rudder ranges are not
inverted, dt is positive, t_end is positive (regardless of t0), and both
decimation factors are positive; it raises ConfigError in every other
case. -/
theorem C9_validation_exact (p : VesselParams) (c : SimulationConfig) :
    (validate_params p = .ok () ↔
      0 < p.m ∧ 0 < p.Iz ∧ p.rpm_min < p.rpm_max ∧
        p.rudder_min < p.rudder_max) ∧
    (validate_config c = .ok () ↔
      0 < c.dt ∧ 0 < c.t_end ∧ 0 < c.output_decimation ∧
        0 < c.stream_decimation) := by
  constructor
  · unfold validate_params
    split_ifs with h1 h2 h3 h4
    · exact iff_of_false (by simp) (fun h => absurd h.1 (not_lt.mpr h1))
    · exact iff_of_false (by simp) (fun h => absurd h.2.1 (not_lt.mpr h2))
    · exact iff_of_false (by simp)
        (fun h => absurd h.2.2.1 (not_lt.mpr h3))
    · exact iff_of_false (by simp)
        (fun h => absurd h.2.2.2 (not_lt.mpr h4))
    · exact iff_of_true rfl
        ⟨not_le.mp h1, not_le.mp h2, not_le.mp h3, not_le.mp h4⟩
  · unfold validate_config
    split_ifs with h1 h2 h3
    · exact iff_of_false (by simp) (fun h => absurd h.1 (not_lt.mpr h1))
    · exact iff_of_false (by simp) (fun h => absurd h.2.1 (not_lt.mpr h2))
    · refine iff_of_false (by simp) (fun h => ?_)
      rcases h3 with hh | hh
      · exact absurd h.2.2.1 (not_lt.mpr hh)
      · exact absurd h.2.2.2 (not_lt.mpr hh)
    · have hno := not_or.mp h3
      exact iff_of_true rfl
        ⟨not_le.mp h1, not_le.mp h2, not_le.mp hno.1, not_le.mp hno.2⟩

/-- Loop tolerance 1e-12 from src/maris/sim/runner.py line 244. -/
def tol12 : ℚ := 1 / 1000000000000

/-- Zero-length-segment tolerance 1e-15 from src/maris/sim/runner.py line
288. -/
def tol15 : ℚ := 1 / 1000000000000000

/-- Minimal time advance from src/maris/sim/runner.py line 243:
max(1e-9, 1e-6 * dt). -/
def min_advance (dt : ℚ) : ℚ := max (1 / 1000000000) ((1 / 1000000) * dt)

/-- Outcome of one solve_ivp call as the runner consumes it: the success
flag, the message, the time grid sol.t, and sol.y, which may be absent
(None) or an empty/nonempty list of state columns. -/
structure SolveResult where
  success : Bool
  message : String
  ts : List ℚ
  ys : Option (List Vec6)
  deriving Repr, DecidableEq

/-- The collaborators SimulationRunner.run receives (model, control
provider, environment provider) plus the external ODE solver of
src/maris/sim/runner.py lines 293-302, abstracted as a function of the
segment endpoints, the start vector and the frozen control/environment
(the scipy call is determined by exactly these plus the fixed params).
Provider calls may raise, hence Except; the writer/summary-writer and
callbacks default to None in the claims under study and are omitted
(they do not affect the returned result). -/
structure RunnerIO where
  unpack : Vec6 → VesselState
  model_forces : VesselState → ControlInput → EnvironmentSample →
    VesselParams → Except PyErr ForcesOut
  model_f : ℚ → VesselState → ControlInput → EnvironmentSample →
    VesselParams → Except PyErr Derivatives
  provider_current : Except PyErr ControlInput
  provider_compute : ℚ → VesselState → Except PyErr ControlInput
  env_sample : ℚ → VesselState → EnvironmentSample
  solve : ℚ → ℚ → Vec6 → ControlInput → EnvironmentSample → SolveResult

/-- Mutable loop state of SimulationRunner.run: time, tick counter, state
vector, and the rate-integration accumulators rpm_cmd / rudder_cmd
(src/maris/sim/runner.py lines 203-234). -/
structure LoopSt where
  t : ℚ
  k : ℤ
  y : Vec6
  rpm_cmd : ℚ
  rudder_cmd : ℚ
  deriving Repr, DecidableEq

/-- Values carried out of the loop when it stops: final time, tick count
and termination reason (none only on normal while-condition exit). -/
structure LoopFin where
  t : ℚ
  k : ℤ
  reason : Option String
  deriving Repr, DecidableEq

/-- RunResult from src/maris/sim/runner.py lines 93-100 (performance
metrics are wall-clock measurements and are not modelled). -/
structure RunResult where
  status : String
  reason : Option String
  end_time : ℚ
  ticks : ℤ
  dt : ℚ
  deriving Repr, DecidableEq

/-- The control-integration step of SimulationRunner.run lines 250-266:
a control tagged notes == "rate" advances both accumulators by rate * dt,
clamps them into the actuator ranges and issues an absolute command built
from the clamped values; any other control passes through unchanged and
leaves the accumulators untouched.  Returns (new rpm_cmd, new rudder_cmd,
control used for this step). -/
def stepControl (params : VesselParams) (dt : ℚ) (rpm_cmd rudder_cmd : ℚ)
    (up : ControlInput) : ℚ × ℚ × ControlInput :=
  if up.notes = some "rate" then
    let rpm2 := max params.rpm_min (min params.rpm_max
      (rpm_cmd + up.rpm * dt))
    let rud2 := max params.rudder_min (min params.rudder_max
      (rudder_cmd + up.rudder_angle * dt))
    (rpm2, rud2, ⟨rpm2, rud2, none, some "abs"⟩)
  else
    (rpm_cmd, rudder_cmd, up)


/-- Segment integration of SimulationRunner.run lines 283-338: skip the
solver for a zero-length segment (keeping y), otherwise call solve_ivp
over [t, t_next] with frozen control/environment and handle the failure,
empty-output and internal-stagnation cases.  Sum.inl is the post-segment
state vector; Sum.inr is a break with reason (the solver-failed branch
advances t to the solver's last time only when it moved at least
min_advance). -/
def segmentStep (io0 : RunnerIO) (cfg : SimulationConfig) (st : LoopSt)
    (control : ControlInput) (env : EnvironmentSample) (t_next : ℚ) :
    Vec6 ⊕ LoopFin :=
  if t_next ≤ st.t + tol15 then Sum.inl st.y
  else
    let sol := io0.solve st.t t_next st.y control env
    if sol.success = false ∨ sol.ys.isNone then
      let reason := "solver_failed: " ++ sol.message
      let last_t := sol.ts.getLast?.getD st.t
      let t2 := if last_t - st.t < min_advance cfg.dt then st.t else last_t
      Sum.inr ⟨t2, st.k, some reason⟩
    else
      let cols := sol.ys.getD []
      if cols.length = 0 then
        Sum.inr ⟨st.t, st.k, some "solver_no_output"⟩
      else
        let y_out := cols.getLast?.getD st.y
        if sol.ts.length ≠ 0 ∧
            sol.ts.getLast?.getD st.t - st.t < min_advance cfg.dt ∧
            t_next - st.t ≥ min_advance cfg.dt then
          Sum.inr ⟨st.t, st.k, some "solver_stagnation_internal"⟩
        else Sum.inl y_out

/-- Time/tick advance and termination of SimulationRunner.run lines
400-420: break with the stagnation reason when the nominal segment is
shorter than min_advance (t and k unchanged), otherwise advance t and k
and break when a termination bound names a reason (apply_termination_bounds
returns only nonempty reason strings, so Python truthiness is isSome). -/
def advanceOrBreak (cfg : SimulationConfig) (st : LoopSt) (t_next : ℚ)
    (state_next : VesselState) (y2 : Vec6) (rpm2 rud2 : ℚ) :
    LoopSt ⊕ LoopFin :=
  if t_next - st.t < min_advance cfg.dt then
    Sum.inr ⟨st.t, st.k, some "solver_stagnation_no_time_advance"⟩
  else
    let reason := apply_termination_bounds state_next cfg
    if reason.isSome then Sum.inr ⟨t_next, st.k + 1, reason⟩
    else Sum.inl ⟨t_next, st.k + 1, y2, rpm2, rud2⟩

/-- One iteration of the while loop of SimulationRunner.run lines 244-420:
control sampling and rate integration, bounds check, diagnostic force and
derivative evaluation, segment integration, post-step numerical check,
time/tick advance and termination bounds.  Sum.inl continues with the
next loop state; Sum.inr leaves the loop (break) with final time, ticks
and reason.  Tick logging and callbacks are effect-free for the returned
result and are omitted. -/
def loopBody (io0 : RunnerIO) (cfg : SimulationConfig)
    (params : VesselParams) (st : LoopSt) :
    Except PyErr (LoopSt ⊕ LoopFin) := do
  let state := io0.unpack st.y
  let up ← io0.provider_compute st.t state
  let step := stepControl params cfg.dt st.rpm_cmd st.rudder_cmd up
  let control := step.2.2
  check_bounds_control control params
  let env := io0.env_sample st.t state
  let _forces ← io0.model_forces state control env params
  let _deriv ← io0.model_f st.t state control env params
  let t_next := min (st.t + cfg.dt) cfg.t_end
  match segmentStep io0 cfg st control env t_next with
  | Sum.inr fin => return Sum.inr fin
  | Sum.inl y2 =>
    detect_numerical_issue state (io0.unpack y2)
    return advanceOrBreak cfg st t_next (io0.unpack y2) y2 step.1 step.2.1
/-- The while loop of SimulationRunner.run line 244, driven by explicit
fuel (the Python loop is unbounded; ok none means the fuel ran out with
the loop still running).  The loop condition is t < t_end + 1e-12; a
normal exit carries no reason. -/
def loopGo (io0 : RunnerIO) (cfg : SimulationConfig)
    (params : VesselParams) : ℕ → LoopSt → Except PyErr (Option LoopFin)
  | 0, _ => .ok none
  | fuel + 1, st =>
    if st.t < cfg.t_end + tol12 then
      match loopBody io0 cfg params st with
      | .error e => .error e
      | .ok (Sum.inl st2) => loopGo io0 cfg params fuel st2
      | .ok (Sum.inr fin) => .ok (some fin)
    else .ok (some ⟨st.t, st.k, none⟩)

/-- Status and result assembly of SimulationRunner.run lines 422-459:
status is completed only when the final time reached t_end and no
termination reason was recorded. -/
def mkRunResult (cfg : SimulationConfig) (fin : LoopFin) : RunResult :=
  ⟨if fin.t ≥ cfg.t_end ∧ fin.reason = none then "completed"
    else "terminated", fin.reason, fin.t, fin.k, cfg.dt⟩

/-- Pre-loop state construction of SimulationRunner.run lines 203-234:
t = t0, k = 0, the packed initial vector, and the accumulators seeded from
provider.current() inside try/except (0.0 on failure). -/
def initLoopSt (io0 : RunnerIO) (cfg : SimulationConfig)
    (initial : VesselState) : LoopSt :=
  let y0 : Vec6 := ⟨initial.x, initial.y, initial.psi, initial.u,
    initial.v, initial.r⟩
  match io0.provider_current with
  | .ok c0 => ⟨cfg.t0, 0, y0, c0.rpm, c0.rudder_angle⟩
  | .error _ => ⟨cfg.t0, 0, y0, 0, 0⟩

/-- SimulationRunner.run from src/maris/sim/runner.py lines 186-459:
pre-run validation, loop-state initialization, the while loop, and result
assembly.  Exceptions raised inside the loop (NumericalInstability from
the bounds or post-step checks, or provider/model errors) propagate out:
there is no try/except around the loop in the source. -/
def runner_run (io0 : RunnerIO) (fuel : ℕ) (initial : VesselState)
    (cfg : SimulationConfig) (params : VesselParams) :
    Except PyErr (Option RunResult) := do
  validate_config cfg
  validate_params params
  validate_initial_state initial params
  let r ← loopGo io0 cfg params fuel (initLoopSt io0 cfg initial)
  match r with
  | none => return none
  | some fin => return some (mkRunResult cfg fin)

/-- Iterated application of the loop's control-integration step to the
accumulator pair, feeding the same provider output every step (the loop
applies stepControl once per iteration). -/
def control_iter (params : VesselParams) (dt : ℚ) (up : ControlInput) :
    ℕ → ℚ × ℚ → ℚ × ℚ
  | 0, cmds => cmds
  | k + 1, cmds =>
    let out := stepControl params dt cmds.1 cmds.2 up
    control_iter params dt up k (out.1, out.2.1)

/-- Helper: closed form of the rudder accumulator under a constant
nonnegative rudder rate: after k steps it is the running sum clamped above
by rudder_max (the lower clamp never engages when the start value is at
least rudder_min). -/
theorem control_iter_rudder_closed_form (params : VesselParams)
    (dt ρrpm ρ : ℚ) (hdt : 0 ≤ dt) (hρ : 0 ≤ ρ)
    (hminmax : params.rudder_min ≤ params.rudder_max) :
    ∀ (k : ℕ) (p0 r0 : ℚ), params.rudder_min ≤ r0 →
      r0 ≤ params.rudder_max →
      (control_iter params dt ⟨ρrpm, ρ, none, some "rate"⟩ k (p0, r0)).2 =
        min (r0 + k * ρ * dt) params.rudder_max := by
  intro k
  induction k with
  | zero =>
    intro p0 r0 h1 h2
    simp only [control_iter, Nat.cast_zero, zero_mul, add_zero]
    exact (min_eq_left h2).symm
  | succ k ih =>
    intro p0 r0 h1 h2
    have hρdt : 0 ≤ ρ * dt := mul_nonneg hρ hdt
    have hkρdt : 0 ≤ (k : ℚ) * ρ * dt := by positivity
    rw [control_iter]
    have hstep : stepControl params dt p0 r0 ⟨ρrpm, ρ, none, some "rate"⟩ =
        (max params.rpm_min (min params.rpm_max (p0 + ρrpm * dt)),
         max params.rudder_min (min params.rudder_max (r0 + ρ * dt)),
         ⟨max params.rpm_min (min params.rpm_max (p0 + ρrpm * dt)),
          max params.rudder_min (min params.rudder_max (r0 + ρ * dt)),
          none, some "abs"⟩) := by
      simp [stepControl]
    rw [hstep]
    have hr1eq : max params.rudder_min (min params.rudder_max (r0 + ρ * dt))
        = min (r0 + ρ * dt) params.rudder_max := by
      have hle : params.rudder_min ≤ min params.rudder_max (r0 + ρ * dt) :=
        le_min hminmax (by linarith)
      rw [max_eq_right hle, min_comm]
    have h1' : params.rudder_min ≤
        max params.rudder_min (min params.rudder_max (r0 + ρ * dt)) :=
      le_max_left _ _
    have h2' : max params.rudder_min (min params.rudder_max (r0 + ρ * dt))
        ≤ params.rudder_max := by
      rw [hr1eq]
      exact min_le_right _ _
    rw [ih _ _ h1' h2', hr1eq]
    rcases le_or_lt (r0 + ρ * dt) params.rudder_max with hc | hc
    · rw [min_eq_left hc]
      push_cast
      ring_nf
    · rw [min_eq_right hc.le]
      rw [min_eq_right (by linarith), min_eq_right ?hge]
      case hge =>
        have : r0 + ρ * dt ≤ r0 + (k + 1 : ℚ) * ρ * dt := by nlinarith
        push_cast
        linarith

/-- C3: the loop's per-step control operation passes non-rate-tagged
controls through unchanged; a rate-tagged control advances the RPM and
rudder accumulators by rate times dt clamped into the actuator ranges and
issues the clamped absolute command; and under a constant positive
commanded rudder rate the absolute rudder command after k steps equals
min(r0 + k * rate * dt, rudder_max) — growing linearly by rate * dt per
step until it reaches rudder_max and staying exactly rudder_max on every
later step. -/
theorem C3_rate_to_absolute_integration (params : VesselParams)
    (dt ρrpm ρ p0 r0 : ℚ) (hdt : 0 < dt) (hρ : 0 < ρ)
    (hminmax : params.rudder_min ≤ params.rudder_max)
    (hr0min : params.rudder_min ≤ r0) (hr0max : r0 ≤ params.rudder_max) :
    (∀ (rc uc : ℚ) (up : ControlInput), up.notes ≠ some "rate" →
      stepControl params dt rc uc up = (rc, uc, up)) ∧
    (∀ (rc uc : ℚ) (up : ControlInput), up.notes = some "rate" →
      stepControl params dt rc uc up =
        (max params.rpm_min (min params.rpm_max (rc + up.rpm * dt)),
         max params.rudder_min (min params.rudder_max
           (uc + up.rudder_angle * dt)),
         ⟨max params.rpm_min (min params.rpm_max (rc + up.rpm * dt)),
          max params.rudder_min (min params.rudder_max
            (uc + up.rudder_angle * dt)), none, some "abs"⟩)) ∧
    (∀ k : ℕ,
      (control_iter params dt ⟨ρrpm, ρ, none, some "rate"⟩ k (p0, r0)).2 =
        min (r0 + k * ρ * dt) params.rudder_max) ∧
    (∀ k : ℕ, params.rudder_max ≤ r0 + k * ρ * dt →
      (control_iter params dt ⟨ρrpm, ρ, none, some "rate"⟩ k (p0, r0)).2 =
        params.rudder_max) := by
  refine ⟨?_, ?_, ?_, ?_⟩
  · intro rc uc up hup
    simp [stepControl, hup]
  · intro rc uc up hup
    simp [stepControl, hup]
  · intro k
    exact control_iter_rudder_closed_form params dt ρrpm ρ hdt.le hρ.le
      hminmax k p0 r0 hr0min hr0max
  · intro k hk
    rw [control_iter_rudder_closed_form params dt ρrpm ρ hdt.le hρ.le
      hminmax k p0 r0 hr0min hr0max]
    exact min_eq_right hk

/-- Witness for C3: rudder range [-1, 1], rate 1, dt = 1/2, starting at 0;
after 3 steps the accumulator is min(3/2, 1) = rudder_max. -/
theorem C3_rate_to_absolute_integration_witness :
    (control_iter paramsDemo (1 / 2) ⟨0, 1, none, some "rate"⟩ 3
      (0, 0)).2 = min ((0 : ℚ) + (3 : ℕ) * 1 * (1 / 2))
        paramsDemo.rudder_max :=
  (C3_rate_to_absolute_integration paramsDemo (1 / 2) 0 1 0 0
    (by norm_num) (by norm_num) (by norm_num [paramsDemo])
    (by norm_num [paramsDemo]) (by norm_num [paramsDemo])).2.2.1 3


/-- Helper: pure in the Except monad is ok. -/
theorem exc_pure {α : Type} (a : α) :
    (pure a : Except PyErr α) = Except.ok a := rfl

/-- Helper: every break produced by the segment step carries a reason. -/
theorem segmentStep_inr_reason (io0 : RunnerIO) (cfg : SimulationConfig)
    (st : LoopSt) (control : ControlInput) (env : EnvironmentSample)
    (t_next : ℚ) (fin : LoopFin)
    (h : segmentStep io0 cfg st control env t_next = Sum.inr fin) :
    fin.reason.isSome := by
  unfold segmentStep at h
  dsimp only at h
  split_ifs at h
  all_goals first
    | (obtain rfl := Sum.inr.inj h; rfl)
    | exact absurd h (by simp)

/-- Helper: when advanceOrBreak continues, the new loop time is t_next. -/
theorem advanceOrBreak_inl_time (cfg : SimulationConfig) (st : LoopSt)
    (t_next : ℚ) (state_next : VesselState) (y2 : Vec6) (rpm2 rud2 : ℚ)
    (st2 : LoopSt)
    (h : advanceOrBreak cfg st t_next state_next y2 rpm2 rud2 =
      Sum.inl st2) : st2.t = t_next := by
  unfold advanceOrBreak at h
  dsimp only at h
  split_ifs at h
  all_goals first
    | (obtain rfl := Sum.inl.inj h; rfl)
    | exact absurd h (by simp)

/-- Helper: every break produced by advanceOrBreak carries a reason. -/
theorem advanceOrBreak_inr_reason (cfg : SimulationConfig) (st : LoopSt)
    (t_next : ℚ) (state_next : VesselState) (y2 : Vec6) (rpm2 rud2 : ℚ)
    (fin : LoopFin)
    (h : advanceOrBreak cfg st t_next state_next y2 rpm2 rud2 =
      Sum.inr fin) : fin.reason.isSome := by
  unfold advanceOrBreak at h
  dsimp only at h
  split_ifs at h with h1 h2
  all_goals first
    | (obtain rfl := Sum.inr.inj h; rfl)
    | (obtain rfl := Sum.inr.inj h; exact h2)
    | exact absurd h (by simp)

/-- Helper: any non-exceptional outcome of one loop iteration either
continues with loop time min(t + dt, t_end) or breaks with a recorded
termination reason. -/
theorem loopBody_ok_cases (io0 : RunnerIO) (cfg : SimulationConfig)
    (params : VesselParams) (st : LoopSt) (r : LoopSt ⊕ LoopFin)
    (h : loopBody io0 cfg params st = .ok r) :
    (∀ st2, r = Sum.inl st2 → st2.t = min (st.t + cfg.dt) cfg.t_end) ∧
    (∀ fin, r = Sum.inr fin → fin.reason.isSome) := by
  unfold loopBody at h
  dsimp only at h
  cases hup : io0.provider_compute st.t (io0.unpack st.y) with
  | error e => rw [hup] at h; simp [exc_bind_error] at h
  | ok up =>
  rw [hup] at h
  simp only [exc_bind_ok] at h
  cases hcb : check_bounds_control
      (stepControl params cfg.dt st.rpm_cmd st.rudder_cmd up).2.2
      params with
  | error e => rw [hcb] at h; simp [exc_bind_error] at h
  | ok u =>
  rw [hcb] at h
  simp only [exc_bind_ok] at h
  cases hfo : io0.model_forces (io0.unpack st.y)
      (stepControl params cfg.dt st.rpm_cmd st.rudder_cmd up).2.2
      (io0.env_sample st.t (io0.unpack st.y)) params with
  | error e => rw [hfo] at h; simp [exc_bind_error] at h
  | ok F =>
  rw [hfo] at h
  simp only [exc_bind_ok] at h
  cases hde : io0.model_f st.t (io0.unpack st.y)
      (stepControl params cfg.dt st.rpm_cmd st.rudder_cmd up).2.2
      (io0.env_sample st.t (io0.unpack st.y)) params with
  | error e => rw [hde] at h; simp [exc_bind_error] at h
  | ok D =>
  rw [hde] at h
  simp only [exc_bind_ok] at h
  cases hseg : segmentStep io0 cfg st
      (stepControl params cfg.dt st.rpm_cmd st.rudder_cmd up).2.2
      (io0.env_sample st.t (io0.unpack st.y))
      (min (st.t + cfg.dt) cfg.t_end) with
  | inr fin =>
    rw [hseg] at h
    dsimp only [exc_pure] at h
    obtain rfl := Except.ok.inj h
    constructor
    · intro st2 hst2
      exact absurd hst2 (by simp)
    · intro fin2 hfin2
      obtain rfl := Sum.inr.inj hfin2
      exact segmentStep_inr_reason io0 cfg st _ _ _ fin hseg
  | inl y2 =>
    rw [hseg] at h
    dsimp only at h
    cases hdn : detect_numerical_issue (io0.unpack st.y)
        (io0.unpack y2) with
    | error e => rw [hdn] at h; simp [exc_bind_error] at h
    | ok u2 =>
    rw [hdn] at h
    simp only [exc_bind_ok, exc_pure] at h
    obtain rfl := Except.ok.inj h
    constructor
    · intro st2 hst2
      exact advanceOrBreak_inl_time cfg st _ _ _ _ _ st2 hst2
    · intro fin hfin
      exact advanceOrBreak_inr_reason cfg st _ _ _ _ _ fin hfin

/-- Helper: as long as the loop starts at or below t_end, any final
outcome it delivers carries a termination reason — the loop condition
t < t_end + 1e-12 still holds at t = t_end, and that last iteration can
only break (its nominal segment has zero length), so the no-reason normal
exit is unreachable. -/
theorem loopGo_reason (io0 : RunnerIO) (cfg : SimulationConfig)
    (params : VesselParams) :
    ∀ (fuel : ℕ) (st : LoopSt) (fin : LoopFin), st.t ≤ cfg.t_end →
      loopGo io0 cfg params fuel st = .ok (some fin) →
      fin.reason.isSome := by
  intro fuel
  induction fuel with
  | zero =>
    intro st fin _ h
    simp [loopGo] at h
  | succ fuel ih =>
    intro st fin hle h
    rw [loopGo] at h
    split_ifs at h with hcond
    · cases hb : loopBody io0 cfg params st with
      | error e => rw [hb] at h; simp at h
      | ok r =>
        cases r with
        | inl st2 =>
          rw [hb] at h
          dsimp only at h
          have ht2 := (loopBody_ok_cases io0 cfg params st _ hb).1 st2 rfl
          have hle2 : st2.t ≤ cfg.t_end := by
            rw [ht2]
            exact min_le_right _ _
          exact ih st2 fin hle2 h
        | inr fin2 =>
          rw [hb] at h
          dsimp only at h
          obtain rfl := Option.some.inj (Except.ok.inj h)
          exact (loopBody_ok_cases io0 cfg params st _ hb).2 fin2 rfl
    · exfalso
      have htol : (0 : ℚ) < tol12 := by norm_num [tol12]
      linarith [not_lt.mp hcond]

/-- Helper: the loop starts at t0 regardless of the provider.current()
outcome. -/
theorem initLoopSt_t (io0 : RunnerIO) (cfg : SimulationConfig)
    (initial : VesselState) : (initLoopSt io0 cfg initial).t = cfg.t0 := by
  unfold initLoopSt
  cases io0.provider_current <;> rfl

/-- C1: whenever the configured start time does not exceed t_end (every
meaningful run) and run returns a result, that result has status
"terminated" with a reason present — the status "completed" with no
reason promised by the claim is unreachable: when the loop time reaches
t_end the loop re-enters (condition t < t_end + 1e-12), takes the
zero-length segment and breaks with reason
solver_stagnation_no_time_advance, and every other exit also records a
reason. -/
theorem C1_run_never_completed (io0 : RunnerIO) (fuel : ℕ)
    (initial : VesselState) (cfg : SimulationConfig)
    (params : VesselParams) (res : RunResult) (hle : cfg.t0 ≤ cfg.t_end)
    (hrun : runner_run io0 fuel initial cfg params = .ok (some res)) :
    res.status = "terminated" ∧ res.reason.isSome := by
  unfold runner_run at hrun
  cases hvc : validate_config cfg with
  | error e => rw [hvc] at hrun; simp [exc_bind_error] at hrun
  | ok u1 =>
  rw [hvc] at hrun
  simp only [exc_bind_ok] at hrun
  cases hvp : validate_params params with
  | error e => rw [hvp] at hrun; simp [exc_bind_error] at hrun
  | ok u2 =>
  rw [hvp] at hrun
  simp only [exc_bind_ok, validate_initial_state, check_finite_state]
    at hrun
  cases hlg : loopGo io0 cfg params fuel (initLoopSt io0 cfg initial) with
  | error e => rw [hlg] at hrun; simp [exc_bind_error] at hrun
  | ok ro =>
  cases ro with
  | none =>
    rw [hlg] at hrun
    simp only [exc_bind_ok] at hrun
    dsimp only [exc_pure] at hrun
    exact absurd (Except.ok.inj hrun) (by simp)
  | some fin =>
    rw [hlg] at hrun
    simp only [exc_bind_ok] at hrun
    dsimp only [exc_pure] at hrun
    obtain rfl := Option.some.inj (Except.ok.inj hrun)
    have hst : (initLoopSt io0 cfg initial).t ≤ cfg.t_end := by
      rw [initLoopSt_t]
      exact hle
    have hfin : fin.reason.isSome :=
      loopGo_reason io0 cfg params fuel _ fin hst hlg
    constructor
    · unfold mkRunResult
      rw [if_neg]
      intro hcontra
      rw [hcontra.2] at hfin
      simp at hfin
    · exact hfin

/-- Concrete scenario configuration: t0 = 0, t_end = 1, dt = 0.5, no
termination bounds. -/
def cfgDemo : SimulationConfig := ⟨0, 1, 1 / 2, 1, 1, none⟩

/-- Concrete collaborators: zero-force model, absolute zero-command
provider, calm environment, and a solver that always succeeds and returns
the segment end time with the state unchanged — every segment succeeds
and advances by the full nominal step. -/
def ioTrivial : RunnerIO :=
  ⟨unpack_state_vector,
   fun _ _ _ _ => .ok ⟨0, 0, 0, []⟩,
   fun _ _ _ _ _ => .ok ⟨0, 0, 0, 0, 0, 0⟩,
   .ok ⟨0, 0, none, none⟩,
   fun _ _ => .ok ⟨0, 0, none, some "abs"⟩,
   fun _ _ => ⟨0, 0, 0, 0, none⟩,
   fun _ t_next y _ _ => ⟨true, "end", [t_next], some [y]⟩⟩

/-- Helper: the fully successful demo run (every segment succeeds,
advancing time by the full step, no bound violated) still ends with
status terminated and reason solver_stagnation_no_time_advance at
t = t_end. -/
theorem run_demo_eval :
    runner_run ioTrivial 5 ⟨0, 0, 0, 0, 0, 0, 0⟩ cfgDemo paramsDemo =
      .ok (some ⟨"terminated", some "solver_stagnation_no_time_advance",
        1, 2, 1 / 2⟩) := by
  norm_num [runner_run, validate_config, validate_params,
    validate_initial_state, check_finite_state, exc_bind_ok, loopGo,
    loopBody, segmentStep, advanceOrBreak, stepControl,
    check_bounds_control, detect_numerical_issue,
    apply_termination_bounds, min_advance, tol12, tol15, initLoopSt,
    mkRunResult, ioTrivial, cfgDemo, paramsDemo, unpack_state_vector,
    exc_pure, min_def, max_def]
  exact fun h => Option.noConfusion h

/-- Witness for C1: the demo run of run_demo_eval instantiates the
theorem at fuel 5 with t0 = 0 and t_end = 1. -/
theorem C1_run_never_completed_witness :
    (⟨"terminated", some "solver_stagnation_no_time_advance", 1, 2,
      1 / 2⟩ : RunResult).status = "terminated" ∧
    (⟨"terminated", some "solver_stagnation_no_time_advance", 1, 2,
      1 / 2⟩ : RunResult).reason.isSome :=
  C1_run_never_completed ioTrivial 5 ⟨0, 0, 0, 0, 0, 0, 0⟩ cfgDemo
    paramsDemo _ (by norm_num [cfgDemo]) run_demo_eval

/-- Collaborators identical to ioTrivial except the solver returns a state
whose x coordinate jumped by 2e6 — beyond the 1e6 implausible-jump
threshold of detect_numerical_issue. -/
def ioJump : RunnerIO :=
  ⟨unpack_state_vector,
   fun _ _ _ _ => .ok ⟨0, 0, 0, []⟩,
   fun _ _ _ _ _ => .ok ⟨0, 0, 0, 0, 0, 0⟩,
   .ok ⟨0, 0, none, none⟩,
   fun _ _ => .ok ⟨0, 0, none, some "abs"⟩,
   fun _ _ => ⟨0, 0, 0, 0, none⟩,
   fun _ t_next y _ _ => ⟨true, "end", [t_next],
     some [⟨y.x + 2000000, y.y, y.psi, y.u, y.v, y.r⟩]⟩⟩

/-- C2 counterexample: in a run whose first post-step state jumps x by
2e6, run does not return any RunResult (in particular none with status
terminated): the NumericalInstability raised by the post-step check
escapes run as an exception. -/
theorem C2_instability_counterexample :
    runner_run ioJump 1 ⟨0, 0, 0, 0, 0, 0, 0⟩ cfgDemo paramsDemo =
      .error (.numericalInstability
        "Unrealistic position jump detected") ∧
    ∀ res : Option RunResult,
      runner_run ioJump 1 ⟨0, 0, 0, 0, 0, 0, 0⟩ cfgDemo paramsDemo ≠
        .ok res := by
  have h : runner_run ioJump 1 ⟨0, 0, 0, 0, 0, 0, 0⟩ cfgDemo paramsDemo =
      .error (.numericalInstability
        "Unrealistic position jump detected") := by
    norm_num [runner_run, validate_config, validate_params,
      validate_initial_state, check_finite_state, exc_bind_ok,
      exc_bind_error, loopGo, loopBody, segmentStep, advanceOrBreak,
      stepControl, check_bounds_control, detect_numerical_issue,
      apply_termination_bounds, min_advance, tol12, tol15, initLoopSt,
      mkRunResult, ioJump, cfgDemo, paramsDemo, unpack_state_vector,
      exc_pure, min_def, max_def]
  refine ⟨h, fun res hres => ?_⟩
  rw [h] at hres
  exact Except.noConfusion hres

/-- C2 (amended): a NumericalInstability raised inside a loop iteration is
not converted into a terminated RunResult — the loop propagates it, and
run (whose pre-run validations passed) returns it as an error instead of
a result. -/
theorem C2_instability_escapes (io0 : RunnerIO) (cfg : SimulationConfig)
    (params : VesselParams) (msg : String) :
    (∀ (fuel : ℕ) (st : LoopSt), st.t < cfg.t_end + tol12 →
      loopBody io0 cfg params st = .error (.numericalInstability msg) →
      loopGo io0 cfg params (fuel + 1) st =
        .error (.numericalInstability msg)) ∧
    (∀ (fuel : ℕ) (initial : VesselState),
      validate_config cfg = .ok () → validate_params params = .ok () →
      loopGo io0 cfg params fuel (initLoopSt io0 cfg initial) =
        .error (.numericalInstability msg) →
      runner_run io0 fuel initial cfg params =
        .error (.numericalInstability msg)) := by
  constructor
  · intro fuel st hcond hbody
    rw [loopGo, if_pos hcond, hbody]
  · intro fuel initial hvc hvp hloop
    unfold runner_run
    rw [hvc]
    simp only [exc_bind_ok]
    rw [hvp]
    simp only [exc_bind_ok, validate_initial_state, check_finite_state]
    rw [hloop]
    rfl

/-- Witness for C2: the jump scenario instantiates both parts — the first
iteration raises, the loop propagates, and run returns the error. -/
theorem C2_instability_escapes_witness :
    loopGo ioJump cfgDemo paramsDemo 1
      (initLoopSt ioJump cfgDemo ⟨0, 0, 0, 0, 0, 0, 0⟩) =
      .error (.numericalInstability
        "Unrealistic position jump detected") ∧
    runner_run ioJump 1 ⟨0, 0, 0, 0, 0, 0, 0⟩ cfgDemo paramsDemo =
      .error (.numericalInstability
        "Unrealistic position jump detected") := by
  have hbody : loopBody ioJump cfgDemo paramsDemo
      (initLoopSt ioJump cfgDemo ⟨0, 0, 0, 0, 0, 0, 0⟩) =
      .error (.numericalInstability
        "Unrealistic position jump detected") := by
    norm_num [loopBody, segmentStep, stepControl, check_bounds_control,
      check_finite_state, detect_numerical_issue, exc_bind_ok,
      exc_bind_error, min_advance, tol15, initLoopSt, ioJump, cfgDemo,
      paramsDemo, unpack_state_vector, exc_pure, min_def, max_def]
  have h1 := (C2_instability_escapes ioJump cfgDemo paramsDemo
    "Unrealistic position jump detected").1 0 _
    (by norm_num [initLoopSt, ioJump, cfgDemo, tol12]) hbody
  have h2 := (C2_instability_escapes ioJump cfgDemo paramsDemo
    "Unrealistic position jump detected").2 1 ⟨0, 0, 0, 0, 0, 0, 0⟩
    (by norm_num [validate_config, cfgDemo])
    (by norm_num [validate_params, paramsDemo]) h1
  exact ⟨h1, h2⟩
